import Mathlib

/-!
Verification of the IPC request/response protocol core of `rust-react-gui`
(`src/main.rs`): the command handler (`TuffiProtocolHandler::handle`,
`handle_add`), the error taxonomy (`AppError` and its `Display`
implementation), the dispatch bridge (`handle_ipc_message`), the
static-asset suffix dispatch in `setup_webview`, and the Response wire
codec.  Rust machine integers (`i32`) are embedded as `Int` with explicit
two's-complement wraparound where overflow matters.
-/

namespace RustReactGui

/-- Embeds `struct IpcRequest { function: String, args: Vec<String> }`
(src/main.rs lines 83-87). -/
structure IpcRequest where
  function : String
  args : List String
deriving DecidableEq

/-- Embeds `struct IpcResponse { success: bool, data: Option<String>,
error: Option<String> }` (src/main.rs lines 89-94). -/
structure IpcResponse where
  success : Bool
  data : Option String
  error : Option String
deriving DecidableEq

/-- Embeds `enum AppError` (src/main.rs lines 97-108). -/
inductive AppError where
  | invalidArgCount (function : String) (expected : Nat) (got : Nat)
  | parseError (message : String)
  | unknownFunction (name : String)
deriving DecidableEq

/-- Embeds `impl fmt::Display for AppError` (src/main.rs lines 110-126):
the textual form of each error kind. -/
def AppError.toString : AppError → String
  | .invalidArgCount function expected got =>
      "Invalid argument count for " ++ function ++ ": expected " ++
        ToString.toString expected ++ ", got " ++ ToString.toString got
  | .parseError message => "Parse error: " ++ message
  | .unknownFunction name => "Unknown function: " ++ name

/-- Value of a run of ASCII decimal digits (`none` if the run is empty or
contains a non-digit).  Helper for the embedding of Rust's
`str::parse::<i32>`. -/
def digitsVal (cs : List Char) : Option Nat :=
  if cs.isEmpty then none else go cs 0
where
  go : List Char → Nat → Option Nat
    | [], acc => some acc
    | c :: rest, acc =>
        if c.isDigit then go rest (acc * 10 + (c.toNat - 48)) else none

/-- The (unbounded) signed integer denoted by a string under the grammar
accepted by Rust's integer `FromStr`: an optional `+`/`-` sign followed by
one or more ASCII decimal digits; `none` otherwise. -/
def denotesInt (s : String) : Option Int :=
  match s.data with
  | '-' :: rest => (digitsVal rest).map (fun n => -(n : Int))
  | '+' :: rest => (digitsVal rest).map (fun n => (n : Int))
  | cs => (digitsVal cs).map (fun n => (n : Int))

/-- Embeds `s.parse::<i32>()` as used in `handle_add` (src/main.rs line
158): Rust's `<i32 as FromStr>::from_str` succeeds exactly on strings of
the signed-decimal grammar whose value fits in the 32-bit signed range
(Rust checks overflow incrementally; extensionally this is a final range
check on the denoted value). -/
def parseI32 (s : String) : Option Int :=
  match denotesInt s with
  | some v => if -2147483648 ≤ v ∧ v ≤ 2147483647 then some v else none
  | none => none

/-- Two's-complement wraparound to the 32-bit signed range: the value of
Rust's release-mode `i32` addition `a + b` in `handle_add` (src/main.rs
line 166; debug builds panic on overflow instead). -/
def wrap32 (x : Int) : Int := (x + 2147483648) % 4294967296 - 2147483648

/-- Embeds `struct TuffiProtocolHandler;` (src/main.rs line 135): a unit
struct, no fields, hence no state. -/
structure TuffiProtocolHandler

/-- Rust `{:?}` (Debug) escaping of one character inside a string, as used
by `format!("... {:?}", args)` for the `hello` greeting.  Common cases
(quote, backslash, the short control escapes); other characters pass
through unchanged. -/
def debugEscChar (c : Char) : List Char :=
  if c = '\"' then ['\\', '\"']
  else if c = '\\' then ['\\', '\\']
  else if c = '\n' then ['\\', 'n']
  else if c = '\r' then ['\\', 'r']
  else if c = '\t' then ['\\', 't']
  else [c]

/-- Rust `Debug` formatting of one `String` element: the contents between
double quotes, characters escaped. -/
def debugFmtString (s : String) : String :=
  "\"" ++ String.mk (s.data.foldr (fun c acc => debugEscChar c ++ acc) []) ++ "\""

/-- Rust `Debug` formatting of `&[String]`/`Vec<String>`:
`["a", "b"]` — elements `Debug`-formatted, comma-space separated, in
square brackets. -/
def debugFmtArgs (args : List String) : String :=
  "[" ++ String.intercalate ", " (args.map debugFmtString) ++ "]"

/-- Embeds `TuffiProtocolHandler::handle_add` (src/main.rs lines 148-167):
argument-count check, per-argument `i32` parse, then the formatted sum.
The indexing `args[0]`/`args[1]` is in bounds by the length check, so the
`getD` defaults are unreachable. -/
def TuffiProtocolHandler.handleAdd (args : List String) : Except AppError String :=
  if args.length ≠ 2 then
    Except.error (AppError.invalidArgCount "add" 2 args.length)
  else
    let s0 := args.getD 0 ""
    let s1 := args.getD 1 ""
    match parseI32 s0 with
    | none => Except.error (AppError.parseError ("Failed to parse '" ++ s0 ++ "' as number"))
    | some a =>
      match parseI32 s1 with
      | none => Except.error (AppError.parseError ("Failed to parse '" ++ s1 ++ "' as number"))
      | some b => Except.ok ("Sum: " ++ ToString.toString (wrap32 (a + b)))

/-- Embeds `impl ProtocolHandler for TuffiProtocolHandler::handle`
(src/main.rs lines 137-145): string dispatch over the function name. -/
def TuffiProtocolHandler.handle (_h : TuffiProtocolHandler) (function : String)
    (args : List String) : Except AppError String :=
  if function = "hello" then
    Except.ok ("Hello from Rust! Args: " ++ debugFmtArgs args)
  else if function = "add" then
    TuffiProtocolHandler.handleAdd args
  else
    Except.error (AppError.unknownFunction function)

/-- Embeds the response construction of `handle_ipc_message` (src/main.rs
lines 275-298).  The `serde_json::from_str::<IpcRequest>` decode step is
external library code (not in src/); following the spec's codec contract
("parse as the Request envelope; on structural or type failure, produce a
textual parse-error description — never throw past the boundary") it is
modelled as the decode outcome fed to the dispatch match: `Except.ok` a
request, or `Except.error` carrying the decoder's textual description.
The function is total: no inbound outcome can crash it. -/
def handleIpcMessage (handler : TuffiProtocolHandler)
    (decoded : Except String IpcRequest) : IpcResponse :=
  match decoded with
  | .ok req =>
    match handler.handle req.function req.args with
    | .ok result => { success := true, data := some result, error := none }
    | .error e => { success := false, data := none, error := some e.toString }
  | .error e =>
    { success := false, data := none, error := some ("Failed to parse message: " ++ e) }

/-- One dispatch step threading the handler value explicitly: the Rust ipc
closure holds an `Arc<dyn ProtocolHandler>` across messages and `handle`
borrows it immutably (`&self`), so a step returns the response together
with the (unchanged) handler. -/
def dispatchStep (handler : TuffiProtocolHandler)
    (decoded : Except String IpcRequest) : IpcResponse × TuffiProtocolHandler :=
  (handleIpcMessage handler decoded, handler)

/-- Embeds Rust's `str::ends_with` (a suffix test on the character
sequence), used on the request path in `setup_webview`. -/
def strEndsWith (s pat : String) : Bool :=
  pat.data == s.data.drop (s.data.length - pat.data.length)

/-- Embeds the suffix dispatch of the `assets` custom protocol in
`setup_webview` (src/main.rs lines 237-248): given the request path and
the bytes served for the stylesheet (`get_css`) and the script (`get_js`),
returns the `Content-Type` header value and the served body.  The
remaining headers (CORS etc.) are the same literal list in every branch
of the source; the asset bytes are parameters because `get_css`/`get_js`
read the filesystem (external boundary). -/
def serveAsset (path : String) (css js : String) : String × String :=
  if strEndsWith path ".css" then ("text/css", css)
  else if strEndsWith path ".js" then ("application/javascript", js)
  else if strEndsWith path ".wasm" then ("application/wasm", js)
  else ("application/octet-stream", js)


/-- Lowercase hex digit character, as in serde_json's escape table
`b"0123456789abcdef"`. -/
def hexDigitChar (n : Nat) : Char :=
  if n < 10 then Char.ofNat (48 + n) else Char.ofNat (87 + n)

/-- serde_json's escaping of one character inside a JSON string literal:
`"` and `\` are backslash-escaped, the control characters BS, TAB, LF,
FF, CR get their short escapes, the remaining control characters become
`\u00XX`, and every other character passes through unchanged. -/
def jsonEscChar (c : Char) : List Char :=
  if c = '\"' then ['\\', '\"']
  else if c = '\\' then ['\\', '\\']
  else if c.toNat = 8 then ['\\', 'b']
  else if c.toNat = 9 then ['\\', 't']
  else if c.toNat = 10 then ['\\', 'n']
  else if c.toNat = 12 then ['\\', 'f']
  else if c.toNat = 13 then ['\\', 'r']
  else if c.toNat < 32 then
    ['\\', 'u', '0', '0', hexDigitChar (c.toNat / 16), hexDigitChar (c.toNat % 16)]
  else [c]

/-- JSON escaping of a character sequence. -/
def jsonEscStr : List Char → List Char
  | [] => []
  | c :: cs => jsonEscChar c ++ jsonEscStr cs

/-- JSON encoding of `Option<String>`: `null` for `None`, a quoted
escaped string literal for `Some`. -/
def encOptStr : Option String → String
  | none => "null"
  | some s => "\"" ++ String.mk (jsonEscStr s.data) ++ "\""

/-- Modelled from the spec: the Response wire encoder
(`serde_json::to_string(&response)` over `derive(Serialize)`) is external
library code not in src/; the spec fixes the wire shape
`\x7b"success": bool, "data": string|null, "error": string|null\x7d`
with fields in declaration order, so the encoder is modelled as that JSON
text with standard string escaping. -/
def encodeResponse (r : IpcResponse) : String :=
  "\x7b\"success\":" ++ (if r.success then "true" else "false") ++
    ",\"data\":" ++ encOptStr r.data ++ ",\"error\":" ++ encOptStr r.error ++ "\x7d"

/-- Numeric value of a hex digit character, `none` for non-hex-digits. -/
def hexVal (c : Char) : Option Nat :=
  if '0' ≤ c ∧ c ≤ '9' then some (c.toNat - 48)
  else if 'a' ≤ c ∧ c ≤ 'f' then some (c.toNat - 87)
  else if 'A' ≤ c ∧ c ≤ 'F' then some (c.toNat - 55)
  else none

/-- Parses the body of a JSON string literal (the part after the opening
quote), undoing `jsonEscChar` escapes; returns the decoded characters and
the input remaining after the closing quote. -/
def jsonUnescStr : List Char → Option (List Char × List Char)
  | [] => none
  | c :: rest =>
    if c = '\"' then some ([], rest)
    else if c = '\\' then
      match rest with
      | [] => none
      | e :: rest2 =>
        if e = '\"' then (jsonUnescStr rest2).map (fun p => ('\"' :: p.1, p.2))
        else if e = '\\' then (jsonUnescStr rest2).map (fun p => ('\\' :: p.1, p.2))
        else if e = 'b' then (jsonUnescStr rest2).map (fun p => (Char.ofNat 8 :: p.1, p.2))
        else if e = 't' then (jsonUnescStr rest2).map (fun p => (Char.ofNat 9 :: p.1, p.2))
        else if e = 'n' then (jsonUnescStr rest2).map (fun p => (Char.ofNat 10 :: p.1, p.2))
        else if e = 'f' then (jsonUnescStr rest2).map (fun p => (Char.ofNat 12 :: p.1, p.2))
        else if e = 'r' then (jsonUnescStr rest2).map (fun p => (Char.ofNat 13 :: p.1, p.2))
        else if e = 'u' then
          match rest2 with
          | h1 :: h2 :: h3 :: h4 :: rest3 =>
            match hexVal h1, hexVal h2, hexVal h3, hexVal h4 with
            | some d1, some d2, some d3, some d4 =>
              (jsonUnescStr rest3).map
                (fun p => (Char.ofNat (((d1 * 16 + d2) * 16 + d3) * 16 + d4) :: p.1, p.2))
            | _, _, _, _ => none
          | _ => none
        else none
    else (jsonUnescStr rest).map (fun p => (c :: p.1, p.2))

/-- Consumes an expected literal character sequence from the input,
returning the remaining input. -/
def parseLit : List Char → List Char → Option (List Char)
  | [], input => some input
  | c :: cs, input =>
    match input with
    | [] => none
    | d :: input2 => if d = c then parseLit cs input2 else none

/-- Parses a JSON boolean token. -/
def parseBoolTok (input : List Char) : Option (Bool × List Char) :=
  match parseLit "true".data input with
  | some rest => some (true, rest)
  | none =>
    match parseLit "false".data input with
    | some rest => some (false, rest)
    | none => none

/-- Parses a JSON `string|null` value. -/
def parseOptStrTok (input : List Char) : Option (Option String × List Char) :=
  match parseLit "null".data input with
  | some rest => some (none, rest)
  | none =>
    match input with
    | [] => none
    | c :: rest =>
      if c = '\"' then (jsonUnescStr rest).map (fun p => (some (String.mk p.1), p.2))
      else none

/-- Modelled from the spec: no Response decoder exists in src/ (the Rust
side only derives `Serialize` for `IpcResponse`); the spec's round-trip
property is stated "where a decoder for Response exists", so a strict
decoder for the spec's Response wire shape is modelled here: the envelope
`\x7b"success": bool, "data": string|null, "error": string|null\x7d`
with fields in declaration order and nothing trailing. -/
def decodeResponse (s : String) : Option IpcResponse :=
  match parseLit "\x7b\"success\":".data s.data with
  | none => none
  | some r1 =>
    match parseBoolTok r1 with
    | none => none
    | some (b, r2) =>
      match parseLit ",\"data\":".data r2 with
      | none => none
      | some r3 =>
        match parseOptStrTok r3 with
        | none => none
        | some (d, r4) =>
          match parseLit ",\"error\":".data r4 with
          | none => none
          | some r5 =>
            match parseOptStrTok r5 with
            | none => none
            | some (err, r6) =>
              match parseLit "\x7d".data r6 with
              | none => none
              | some r7 => if r7.isEmpty then some ⟨b, d, err⟩ else none


end RustReactGui

namespace RustReactGui

theorem wrap32_eq_of_range (x : Int) (hlo : -2147483648 ≤ x) (hhi : x ≤ 2147483647) :
    wrap32 x = x := by
  unfold wrap32
  have h1 : (0 : Int) ≤ x + 2147483648 := by omega
  have h2 : x + 2147483648 < 4294967296 := by omega
  rw [Int.emod_eq_of_lt h1 h2]
  omega

/-- C2: for every decode outcome of an inbound message, the dispatched
Response has `data` present and `error` absent when `success` is true, and
`error` present and `data` absent when `success` is false. -/
theorem response_success_data_error_invariant (hdl : TuffiProtocolHandler)
    (decoded : Except String IpcRequest) :
    ((handleIpcMessage hdl decoded).success = true ∧
      (∃ s, (handleIpcMessage hdl decoded).data = some s) ∧
      (handleIpcMessage hdl decoded).error = none) ∨
    ((handleIpcMessage hdl decoded).success = false ∧
      (∃ s, (handleIpcMessage hdl decoded).error = some s) ∧
      (handleIpcMessage hdl decoded).data = none) := by
  cases decoded with
  | error e => exact Or.inr ⟨rfl, ⟨_, rfl⟩, rfl⟩
  | ok req =>
    cases h : hdl.handle req.function req.args with
    | ok v =>
      refine Or.inl ?_
      simp [handleIpcMessage, h]
    | error e =>
      refine Or.inr ?_
      simp [handleIpcMessage, h]

/-- C3: whenever decoding an inbound message fails with description `e`,
dispatch does not crash (`handleIpcMessage` is total) and returns a
Response with `success = false`, no data, and a non-empty error that
begins with `"Failed to parse message: "`. -/
theorem decode_failure_response (hdl : TuffiProtocolHandler) (e : String) :
    handleIpcMessage hdl (Except.error e) =
      ⟨false, none, some ("Failed to parse message: " ++ e)⟩ ∧
    ("Failed to parse message: " ++ e) ≠ "" ∧
    (∃ t, ("Failed to parse message: " ++ e) = "Failed to parse message: " ++ t) := by
  refine ⟨rfl, ?_, ⟨e, rfl⟩⟩
  intro hcontra
  have hlen := congrArg String.length hcontra
  rw [String.length_append] at hlen
  have h25 : ("Failed to parse message: " : String).length = 25 := rfl
  have h0 : ("" : String).length = 0 := rfl
  omega

/-- C4: an `add` request whose argument list does not have length 2 yields
a failure Response whose error names 2 as expected and the actual length
as got. -/
theorem add_wrong_argcount (hdl : TuffiProtocolHandler) (args : List String)
    (h : args.length ≠ 2) :
    handleIpcMessage hdl (Except.ok ⟨"add", args⟩) =
      ⟨false, none, some ("Invalid argument count for add: expected 2, got " ++
        ToString.toString args.length)⟩ := by
  have hadd : TuffiProtocolHandler.handleAdd args =
      Except.error (AppError.invalidArgCount "add" 2 args.length) := by
    unfold TuffiProtocolHandler.handleAdd
    rw [if_pos h]
  have hh : hdl.handle "add" args =
      Except.error (AppError.invalidArgCount "add" 2 args.length) := by
    unfold TuffiProtocolHandler.handle
    rw [if_neg (by decide), if_pos rfl]
    exact hadd
  show (match hdl.handle "add" args with
    | .ok result => ({ success := true, data := some result, error := none } : IpcResponse)
    | .error e => { success := false, data := none, error := some e.toString }) = _
  rw [hh]
  rfl

theorem add_wrong_argcount_witness :
    (["2"] : List String).length ≠ 2 ∧
    handleIpcMessage ⟨⟩ (Except.ok ⟨"add", ["2"]⟩) =
      ⟨false, none, some "Invalid argument count for add: expected 2, got 1"⟩ := by
  refine ⟨by decide, ?_⟩
  rw [add_wrong_argcount ⟨⟩ ["2"] (by decide)]
  rfl

/-- C6: a request whose function name is neither `"hello"` nor `"add"`
yields a failure Response whose error names the unknown function. -/
theorem unknown_function_response (hdl : TuffiProtocolHandler) (f : String)
    (args : List String) (h1 : f ≠ "hello") (h2 : f ≠ "add") :
    handleIpcMessage hdl (Except.ok ⟨f, args⟩) =
      ⟨false, none, some ("Unknown function: " ++ f)⟩ := by
  have hh : hdl.handle f args = Except.error (AppError.unknownFunction f) := by
    unfold TuffiProtocolHandler.handle
    rw [if_neg h1, if_neg h2]
  show (match hdl.handle f args with
    | .ok result => ({ success := true, data := some result, error := none } : IpcResponse)
    | .error e => { success := false, data := none, error := some e.toString }) = _
  rw [hh]
  rfl

theorem unknown_function_response_witness :
    ("nope" : String) ≠ "hello" ∧ ("nope" : String) ≠ "add" ∧
    handleIpcMessage ⟨⟩ (Except.ok ⟨"nope", []⟩) =
      ⟨false, none, some "Unknown function: nope"⟩ := by
  refine ⟨by decide, by decide, ?_⟩
  rw [unknown_function_response ⟨⟩ "nope" [] (by decide) (by decide)]
  rfl

/-- C9: dispatching the same well-formed `hello` request twice yields two
structurally equal Responses, the handler value is unchanged between the
calls (the handler struct has no fields and `handle` takes `&self`), and
the request succeeds. -/
theorem hello_dispatch_idempotent (hdl : TuffiProtocolHandler) (args : List String) :
    (dispatchStep hdl (Except.ok ⟨"hello", args⟩)).1 =
      (dispatchStep (dispatchStep hdl (Except.ok ⟨"hello", args⟩)).2
        (Except.ok ⟨"hello", args⟩)).1 ∧
    (dispatchStep hdl (Except.ok ⟨"hello", args⟩)).2 = hdl ∧
    (dispatchStep hdl (Except.ok ⟨"hello", args⟩)).1.success = true :=
  ⟨rfl, rfl, rfl⟩


/-- C1 (counterexample): on the request `add ["2","3"]` (both arguments
parse as integers 2 and 3) the response succeeds, but its `data` field is
`"Sum: 5"`, not the bare decimal string of 2 + 3. -/
theorem add_data_not_bare_decimal :
    parseI32 "2" = some 2 ∧ parseI32 "3" = some 3 ∧
    (handleIpcMessage ⟨⟩ (Except.ok ⟨"add", ["2", "3"]⟩)).success = true ∧
    (handleIpcMessage ⟨⟩ (Except.ok ⟨"add", ["2", "3"]⟩)).data = some "Sum: 5" ∧
    (handleIpcMessage ⟨⟩ (Except.ok ⟨"add", ["2", "3"]⟩)).data ≠
      some (ToString.toString ((2 : Int) + 3)) := by
  refine ⟨rfl, rfl, rfl, rfl, ?_⟩
  decide

/-- C1 (amended): for every `add` request with exactly two arguments that
parse as 32-bit signed integers `a` and `b` whose sum is still in the
32-bit signed range, the Response succeeds and `data` is `"Sum: "`
followed by the decimal string of `a + b` (out-of-range sums wrap in the
source's release-mode `i32` addition). -/
theorem add_ok (hdl : TuffiProtocolHandler) (s0 s1 : String) (a b : Int)
    (h0 : parseI32 s0 = some a) (h1 : parseI32 s1 = some b)
    (hlo : -2147483648 ≤ a + b) (hhi : a + b ≤ 2147483647) :
    handleIpcMessage hdl (Except.ok ⟨"add", [s0, s1]⟩) =
      ⟨true, some ("Sum: " ++ ToString.toString (a + b)), none⟩ := by
  have hadd : TuffiProtocolHandler.handleAdd [s0, s1] =
      Except.ok ("Sum: " ++ ToString.toString (wrap32 (a + b))) := by
    unfold TuffiProtocolHandler.handleAdd
    rw [if_neg (by simp)]
    simp only [List.getD_cons_zero, List.getD_cons_succ, h0, h1]
  have hh : hdl.handle "add" [s0, s1] =
      Except.ok ("Sum: " ++ ToString.toString (wrap32 (a + b))) := by
    unfold TuffiProtocolHandler.handle
    rw [if_neg (by decide), if_pos rfl]
    exact hadd
  have hw : wrap32 (a + b) = a + b := wrap32_eq_of_range _ hlo hhi
  show (match hdl.handle "add" [s0, s1] with
    | .ok result => ({ success := true, data := some result, error := none } : IpcResponse)
    | .error e => { success := false, data := none, error := some e.toString }) = _
  rw [hh, hw]

theorem add_ok_witness :
    parseI32 "2" = some 2 ∧ parseI32 "3" = some 3 ∧
    (-2147483648 : Int) ≤ 2 + 3 ∧ ((2 : Int) + 3) ≤ 2147483647 ∧
    handleIpcMessage ⟨⟩ (Except.ok ⟨"add", ["2", "3"]⟩) =
      ⟨true, some ("Sum: " ++ ToString.toString ((2 : Int) + 3)), none⟩ :=
  ⟨rfl, rfl, by decide, by decide,
    add_ok ⟨⟩ "2" "3" 2 3 rfl rfl (by decide) (by decide)⟩

/-- C5: an `add` request with exactly two arguments of which at least one
fails 32-bit integer parsing yields a failure Response whose error
describes the parse failure. -/
theorem add_parse_failure (hdl : TuffiProtocolHandler) (s0 s1 : String)
    (h : parseI32 s0 = none ∨ parseI32 s1 = none) :
    (handleIpcMessage hdl (Except.ok ⟨"add", [s0, s1]⟩)).success = false ∧
    (handleIpcMessage hdl (Except.ok ⟨"add", [s0, s1]⟩)).data = none ∧
    ∃ t, (handleIpcMessage hdl (Except.ok ⟨"add", [s0, s1]⟩)).error =
      some ("Parse error: " ++ ("Failed to parse '" ++ t ++ "' as number")) := by
  cases h0 : parseI32 s0 with
  | none =>
    have hadd : TuffiProtocolHandler.handleAdd [s0, s1] =
        Except.error (AppError.parseError ("Failed to parse '" ++ s0 ++ "' as number")) := by
      unfold TuffiProtocolHandler.handleAdd
      rw [if_neg (by simp)]
      simp only [List.getD_cons_zero, List.getD_cons_succ, h0]
    have hh : hdl.handle "add" [s0, s1] =
        Except.error (AppError.parseError ("Failed to parse '" ++ s0 ++ "' as number")) := by
      unfold TuffiProtocolHandler.handle
      rw [if_neg (by decide), if_pos rfl]
      exact hadd
    have hresp : handleIpcMessage hdl (Except.ok ⟨"add", [s0, s1]⟩) =
        ⟨false, none, some ("Parse error: " ++ ("Failed to parse '" ++ s0 ++ "' as number"))⟩ := by
      show (match hdl.handle "add" [s0, s1] with
        | .ok result => ({ success := true, data := some result, error := none } : IpcResponse)
        | .error e => { success := false, data := none, error := some e.toString }) = _
      rw [hh]
      rfl
    exact ⟨by rw [hresp], by rw [hresp], ⟨s0, by rw [hresp]⟩⟩
  | some a =>
    cases h1 : parseI32 s1 with
    | none =>
      have hadd : TuffiProtocolHandler.handleAdd [s0, s1] =
          Except.error (AppError.parseError ("Failed to parse '" ++ s1 ++ "' as number")) := by
        unfold TuffiProtocolHandler.handleAdd
        rw [if_neg (by simp)]
        simp only [List.getD_cons_zero, List.getD_cons_succ, h0, h1]
      have hh : hdl.handle "add" [s0, s1] =
          Except.error (AppError.parseError ("Failed to parse '" ++ s1 ++ "' as number")) := by
        unfold TuffiProtocolHandler.handle
        rw [if_neg (by decide), if_pos rfl]
        exact hadd
      have hresp : handleIpcMessage hdl (Except.ok ⟨"add", [s0, s1]⟩) =
          ⟨false, none, some ("Parse error: " ++ ("Failed to parse '" ++ s1 ++ "' as number"))⟩ := by
        show (match hdl.handle "add" [s0, s1] with
          | .ok result => ({ success := true, data := some result, error := none } : IpcResponse)
          | .error e => { success := false, data := none, error := some e.toString }) = _
        rw [hh]
        rfl
      exact ⟨by rw [hresp], by rw [hresp], ⟨s1, by rw [hresp]⟩⟩
    | some b =>
      rw [h0, h1] at h
      simp at h

theorem add_parse_failure_witness :
    (parseI32 "abc" = none ∨ parseI32 "3" = none) ∧
    ((handleIpcMessage ⟨⟩ (Except.ok ⟨"add", ["abc", "3"]⟩)).success = false ∧
     (handleIpcMessage ⟨⟩ (Except.ok ⟨"add", ["abc", "3"]⟩)).data = none ∧
     ∃ t, (handleIpcMessage ⟨⟩ (Except.ok ⟨"add", ["abc", "3"]⟩)).error =
       some ("Parse error: " ++ ("Failed to parse '" ++ t ++ "' as number"))) :=
  ⟨Or.inl rfl, add_parse_failure ⟨⟩ "abc" "3" (Or.inl rfl)⟩

/-- C7: the `add` arguments are parsed as 32-bit signed integers: any
argument string that denotes a signed integer outside
`[-2147483648, 2147483647]` makes the handler return a `ParseError`
failure, although the string is a valid signed integer. -/
theorem add_out_of_i32_range (hdl : TuffiProtocolHandler) (s0 s1 : String) (v : Int)
    (hd : denotesInt s0 = some v ∨ denotesInt s1 = some v)
    (hout : v < -2147483648 ∨ 2147483647 < v) :
    ∃ m, hdl.handle "add" [s0, s1] = Except.error (AppError.parseError m) := by
  have hnone : ∀ s, denotesInt s = some v → parseI32 s = none := by
    intro s hs
    unfold parseI32
    simp only [hs]
    rw [if_neg (by omega)]
  have hh : hdl.handle "add" [s0, s1] = TuffiProtocolHandler.handleAdd [s0, s1] := by
    unfold TuffiProtocolHandler.handle
    rw [if_neg (by decide), if_pos rfl]
  rw [hh]
  cases h0 : parseI32 s0 with
  | none =>
    refine ⟨"Failed to parse '" ++ s0 ++ "' as number", ?_⟩
    unfold TuffiProtocolHandler.handleAdd
    rw [if_neg (by simp)]
    simp only [List.getD_cons_zero, List.getD_cons_succ, h0]
  | some a =>
    have h1 : parseI32 s1 = none := by
      cases hd with
      | inl hd0 =>
        exfalso
        have hx := hnone s0 hd0
        rw [hx] at h0
        exact Option.noConfusion h0
      | inr hd1 => exact hnone s1 hd1
    refine ⟨"Failed to parse '" ++ s1 ++ "' as number", ?_⟩
    unfold TuffiProtocolHandler.handleAdd
    rw [if_neg (by simp)]
    simp only [List.getD_cons_zero, List.getD_cons_succ, h0, h1]

theorem add_out_of_i32_range_witness :
    (denotesInt "2147483648" = some 2147483648 ∨
      denotesInt "0" = some 2147483648) ∧
    ((2147483648 : Int) < -2147483648 ∨ (2147483647 : Int) < 2147483648) ∧
    ∃ m, TuffiProtocolHandler.handle ⟨⟩ "add" ["2147483648", "0"] =
      Except.error (AppError.parseError m) :=
  ⟨Or.inl rfl, Or.inr (by decide),
    add_out_of_i32_range ⟨⟩ "2147483648" "0" 2147483648 (Or.inl rfl) (Or.inr (by decide))⟩

/-- C8: on the `assets` custom protocol, every request path that does not
end in `.css` is served the JavaScript asset content — the same body as a
`.js` path — including `.wasm` and unrecognized suffixes; only the
`Content-Type` value depends on the suffix. -/
theorem asset_non_css_serves_js (path css js : String)
    (h : strEndsWith path ".css" = false) :
    (serveAsset path css js).2 = js ∧
    (serveAsset path css js).2 = (serveAsset "index.js" css js).2 := by
  have hmain : (serveAsset path css js).2 = js := by
    unfold serveAsset
    rw [if_neg (by simp [h])]
    split
    · rfl
    · split
      · rfl
      · rfl
  have hjs : (serveAsset "index.js" css js).2 = js := rfl
  exact ⟨hmain, by rw [hmain, hjs]⟩

theorem asset_non_css_serves_js_witness :
    strEndsWith "app.wasm" ".css" = false ∧
    (serveAsset "app.wasm" "csstext" "jstext").2 = "jstext" ∧
    (serveAsset "app.wasm" "csstext" "jstext").2 =
      (serveAsset "index.js" "csstext" "jstext").2 :=
  ⟨rfl, (asset_non_css_serves_js "app.wasm" "csstext" "jstext" rfl).1,
    (asset_non_css_serves_js "app.wasm" "csstext" "jstext" rfl).2⟩


theorem parseLit_append (l rest : List Char) : parseLit l (l ++ rest) = some rest := by
  induction l with
  | nil => rfl
  | cons c cs ih => simp [parseLit, ih]

theorem hexVal_hexDigitChar_fin : ∀ n : Fin 16, hexVal (hexDigitChar n.val) = some n.val := by
  decide

theorem hexVal_hexDigitChar (n : Nat) (h : n < 16) : hexVal (hexDigitChar n) = some n :=
  hexVal_hexDigitChar_fin ⟨n, h⟩

theorem jsonUnescStr_escChar (c : Char) (rest : List Char) :
    jsonUnescStr (jsonEscChar c ++ rest) =
      (jsonUnescStr rest).map (fun p => (c :: p.1, p.2)) := by
  unfold jsonEscChar
  by_cases h1 : c = '\"'
  · subst h1
    rw [if_pos rfl]
    conv_lhs => rw [jsonUnescStr.eq_def]
    simp
  · rw [if_neg h1]
    by_cases h2 : c = '\\'
    · subst h2
      rw [if_pos rfl]
      conv_lhs => rw [jsonUnescStr.eq_def]
      simp
    · rw [if_neg h2]
      by_cases h3 : c.toNat = 8
      · rw [if_pos h3]
        have hc : c = Char.ofNat 8 := by rw [← h3, Char.ofNat_toNat]
        subst hc
        conv_lhs => rw [jsonUnescStr.eq_def]
        simp
      · rw [if_neg h3]
        by_cases h4 : c.toNat = 9
        · rw [if_pos h4]
          have hc : c = Char.ofNat 9 := by rw [← h4, Char.ofNat_toNat]
          subst hc
          conv_lhs => rw [jsonUnescStr.eq_def]
          simp
        · rw [if_neg h4]
          by_cases h5 : c.toNat = 10
          · rw [if_pos h5]
            have hc : c = Char.ofNat 10 := by rw [← h5, Char.ofNat_toNat]
            subst hc
            conv_lhs => rw [jsonUnescStr.eq_def]
            simp
          · rw [if_neg h5]
            by_cases h6 : c.toNat = 12
            · rw [if_pos h6]
              have hc : c = Char.ofNat 12 := by rw [← h6, Char.ofNat_toNat]
              subst hc
              conv_lhs => rw [jsonUnescStr.eq_def]
              simp
            · rw [if_neg h6]
              by_cases h7 : c.toNat = 13
              · rw [if_pos h7]
                have hc : c = Char.ofNat 13 := by rw [← h7, Char.ofNat_toNat]
                subst hc
                conv_lhs => rw [jsonUnescStr.eq_def]
                simp
              · rw [if_neg h7]
                by_cases h8 : c.toNat < 32
                · rw [if_pos h8]
                  have e0 : hexVal '0' = some 0 := rfl
                  have hd1 : hexVal (hexDigitChar (c.toNat / 16)) = some (c.toNat / 16) :=
                    hexVal_hexDigitChar _ (by omega)
                  have hd2 : hexVal (hexDigitChar (c.toNat % 16)) = some (c.toNat % 16) :=
                    hexVal_hexDigitChar _ (by omega)
                  conv_lhs => rw [jsonUnescStr.eq_def]
                  simp [e0, hd1, hd2]
                  have hval : c.toNat / 16 * 16 + c.toNat % 16 = c.toNat := by omega
                  rw [hval, Char.ofNat_toNat]
                · rw [if_neg h8]
                  conv_lhs => rw [jsonUnescStr.eq_def]
                  simp [h1, h2]

theorem jsonUnescStr_escStr (cs rest : List Char) :
    jsonUnescStr (jsonEscStr cs ++ ('\"' :: rest)) = some (cs, rest) := by
  induction cs with
  | nil =>
    show jsonUnescStr ('\"' :: rest) = some ([], rest)
    conv_lhs => rw [jsonUnescStr.eq_def]
    simp
  | cons c cs ih =>
    rw [jsonEscStr, List.append_assoc, jsonUnescStr_escChar, ih]
    rfl

theorem parseOptStrTok_enc (o : Option String) (rest : List Char) :
    parseOptStrTok ((encOptStr o).data ++ rest) = some (o, rest) := by
  cases o with
  | none => rfl
  | some s =>
    have hdata : (encOptStr (some s)).data ++ rest =
        '\"' :: (jsonEscStr s.data ++ ('\"' :: rest)) := by
      show (("\"" ++ String.mk (jsonEscStr s.data) ++ "\"").data) ++ rest = _
      rw [String.data_append, String.data_append]
      simp [List.append_assoc]
    rw [hdata]
    unfold parseOptStrTok
    have hlit : parseLit "null".data ('\"' :: (jsonEscStr s.data ++ ('\"' :: rest))) = none := by
      simp [parseLit]
    rw [hlit]
    simp [jsonUnescStr_escStr]

/-- C10: encoding any Response envelope to wire text and decoding that
text back yields a Response with identical `success`, `data` and `error`
fields. -/
theorem decode_encode_response (r : IpcResponse) :
    decodeResponse (encodeResponse r) = some r := by
  obtain ⟨b, d, err⟩ := r
  have hbool : ∀ rest : List Char,
      parseBoolTok (((if b then "true" else "false") : String).data ++ rest) =
        some (b, rest) := by
    cases b <;> intro rest <;> rfl
  unfold encodeResponse decodeResponse
  simp only [String.data_append, List.append_assoc]
  simp only [parseLit_append, hbool, parseOptStrTok_enc]
  rfl


theorem response_success_data_error_invariant_witness :
    ((handleIpcMessage ⟨⟩ (Except.ok ⟨"add", ["2", "3"]⟩)).success = true ∧
      (∃ s, (handleIpcMessage ⟨⟩ (Except.ok ⟨"add", ["2", "3"]⟩)).data = some s) ∧
      (handleIpcMessage ⟨⟩ (Except.ok ⟨"add", ["2", "3"]⟩)).error = none) ∨
    ((handleIpcMessage ⟨⟩ (Except.ok ⟨"add", ["2", "3"]⟩)).success = false ∧
      (∃ s, (handleIpcMessage ⟨⟩ (Except.ok ⟨"add", ["2", "3"]⟩)).error = some s) ∧
      (handleIpcMessage ⟨⟩ (Except.ok ⟨"add", ["2", "3"]⟩)).data = none) :=
  response_success_data_error_invariant ⟨⟩ (Except.ok ⟨"add", ["2", "3"]⟩)

theorem decode_failure_response_witness :
    handleIpcMessage ⟨⟩ (Except.error "expected value at line 1 column 1") =
      ⟨false, none,
        some ("Failed to parse message: " ++ "expected value at line 1 column 1")⟩ ∧
    ("Failed to parse message: " ++ "expected value at line 1 column 1") ≠ "" ∧
    (∃ t, ("Failed to parse message: " ++ "expected value at line 1 column 1") =
      "Failed to parse message: " ++ t) :=
  decode_failure_response ⟨⟩ "expected value at line 1 column 1"

theorem hello_dispatch_idempotent_witness :
    (dispatchStep ⟨⟩ (Except.ok ⟨"hello", ["world"]⟩)).1 =
      (dispatchStep (dispatchStep ⟨⟩ (Except.ok ⟨"hello", ["world"]⟩)).2
        (Except.ok ⟨"hello", ["world"]⟩)).1 ∧
    (dispatchStep ⟨⟩ (Except.ok ⟨"hello", ["world"]⟩)).2 = ⟨⟩ ∧
    (dispatchStep ⟨⟩ (Except.ok ⟨"hello", ["world"]⟩)).1.success = true :=
  hello_dispatch_idempotent ⟨⟩ ["world"]

theorem decode_encode_response_witness :
    decodeResponse (encodeResponse ⟨true, some "Sum: 5", none⟩) =
      some ⟨true, some "Sum: 5", none⟩ :=
  decode_encode_response ⟨true, some "Sum: 5", none⟩

end RustReactGui
